import Mathlib

/-!
Verification of the sanitizer report interception layer of
`src/tools/cmake/cifuzz/src/dumper.c`.

The C file installs hooks around two sanitizer runtime extension points:
`__sanitizer_set_death_callback` (the callback registry) and
`__sanitizer_report_error_summary` (the dispatcher entry point).  We embed the
string primitives (`strncmp`, `strstr`, `strlen`), the environment, the
dispatcher `sanitizer_death_callback_if_non_fatal_finding`, and the two
platform entry points as pure Lean functions.  Observable actions (forwarding
the summary, printing, reading an environment variable, invoking the stored
callback) are recorded as an event trace; a C null-pointer dereference
(`strstr` on an unset option string, or a call through the null callback
pointer) aborts the trace with an explicit crash marker.
-/

set_option autoImplicit false

namespace Dumper

/-- A NUL-terminated C string without interior NUL characters, as a char list. -/
abbrev CStr := List Char

/-- Embeds `strlen`. -/
def strlen (s : CStr) : Nat := s.length

/-- Embeds `strncmp(a, b, n) == 0`: for NUL-free C strings this holds exactly
when the first `n` characters agree, treating the terminator as a mismatch
against any character, i.e. when `a.take n = b.take n`. -/
def strncmpEq (a b : CStr) (n : Nat) : Bool := decide (a.take n = b.take n)

/-- Embeds `strstr(hay, needle) != NULL`: the needle occurs as a contiguous
substring of the haystack. -/
def strstrFound (hay needle : CStr) : Bool :=
  match hay with
  | [] => needle.isEmpty
  | c :: t => needle.isPrefixOf (c :: t) || strstrFound t needle

/-- Embeds `static const char ASAN_SUMMARY_PREFIX[]` (dumper.c line 15). -/
def asanSummaryLit : CStr := "SUMMARY: AddressSanitizer:".data

/-- Embeds `static const char UBSAN_SUMMARY_PREFIX[]` (dumper.c line 14). -/
def ubsanSummaryLit : CStr := "SUMMARY: UndefinedBehaviorSanitizer:".data

/-- The leak-report needle `"byte(s) leaked"` (dumper.c line 38). -/
def leakedLit : CStr := "byte(s) leaked".data

/-- Needle `"halt_on_error=0"`. -/
def hoe0 : CStr := "halt_on_error=0".data

/-- Needle `"halt_on_error=no"`. -/
def hoeNo : CStr := "halt_on_error=no".data

/-- Needle `"halt_on_error=false"`. -/
def hoeFalse : CStr := "halt_on_error=false".data

/-- Needle `"halt_on_error=1"`. -/
def hoe1 : CStr := "halt_on_error=1".data

/-- Needle `"halt_on_error=yes"`. -/
def hoeYes : CStr := "halt_on_error=yes".data

/-- Needle `"halt_on_error=true"`. -/
def hoeTrue : CStr := "halt_on_error=true".data

/-- The process environment visible to the dispatcher: the two option strings,
each possibly unset (`getenv` returning NULL is modelled by `none`). -/
structure Env where
  asanOptions : Option CStr
  ubsanOptions : Option CStr
deriving DecidableEq, Repr

/-- Observable actions of the interception layer, in program order. -/
inductive Event where
  /-- The macOS hook forwarded the summary to the real
  `__sanitizer_report_error_summary` found via `dlsym(RTLD_NEXT, ...)`. -/
  | forwardReal : CStr → Event
  /-- The Linux hook printed the summary via `__sanitizer::Printf`. -/
  | printfReal : CStr → Event
  /-- `getenv` was called on the named variable. -/
  | getenv : String → Event
  /-- The stored death callback (identified by a number) was called. -/
  | invoke : Nat → Event
deriving DecidableEq, Repr

/-- The two C undefined behaviours reachable in the dispatcher, modelled as
crashes that abort the run. -/
inductive Crash where
  /-- `strstr(options, ...)` with `options == NULL` (unset env variable). -/
  | nullStrstr
  /-- A call through `sanitizer_death_callback` while it is still NULL. -/
  | nullCallback
deriving DecidableEq, Repr

/-- Result of one run of an entry point: the events that happened, and whether
the run ended in a crash (events before the crash are kept). -/
structure DispatchResult where
  events : List Event
  crash : Option Crash
deriving DecidableEq, Repr

/-- The second `if` of `sanitizer_death_callback_if_non_fatal_finding`
(dumper.c lines 59-74).  Faithful to the source, the prefix comparison uses
`strlen(ASAN_SUMMARY_PREFIX)` — not the length of `UBSAN_SUMMARY_PREFIX` —
so it only inspects the first 26 characters.  `cb` is the current value of
the global `sanitizer_death_callback`. -/
def ubsanBranch (cb : Option Nat) (ubsanOptions : Option CStr) (s : CStr) : DispatchResult :=
  if strncmpEq ubsanSummaryLit s (strlen asanSummaryLit) then
    match ubsanOptions with
    | none => ⟨[.getenv "UBSAN_OPTIONS"], some .nullStrstr⟩
    | some opts =>
      if !strstrFound opts hoe1 && !strstrFound opts hoeYes && !strstrFound opts hoeTrue then
        match cb with
        | none => ⟨[.getenv "UBSAN_OPTIONS"], some .nullCallback⟩
        | some c => ⟨[.getenv "UBSAN_OPTIONS", .invoke c], none⟩
      else ⟨[.getenv "UBSAN_OPTIONS"], none⟩
  else ⟨[], none⟩

/-- Embeds `sanitizer_death_callback_if_non_fatal_finding` (dumper.c lines
31-75).  The first `if` is the AddressSanitizer branch: on a leak report it
returns from the whole function; otherwise it reads `ASAN_OPTIONS` and, when a
non-halt spelling occurs, calls the death callback; control then falls through
to the UBSan branch (`ubsanBranch`). -/
def sanitizer_death_callback_if_non_fatal_finding
    (cb : Option Nat) (env : Env) (s : CStr) : DispatchResult :=
  if strncmpEq asanSummaryLit s (strlen asanSummaryLit) then
    if strstrFound s leakedLit then ⟨[], none⟩
    else
      match env.asanOptions with
      | none => ⟨[.getenv "ASAN_OPTIONS"], some .nullStrstr⟩
      | some opts =>
        if strstrFound opts hoe0 || strstrFound opts hoeNo || strstrFound opts hoeFalse then
          match cb with
          | none => ⟨[.getenv "ASAN_OPTIONS"], some .nullCallback⟩
          | some c =>
            let r := ubsanBranch cb env.ubsanOptions s
            ⟨.getenv "ASAN_OPTIONS" :: .invoke c :: r.events, r.crash⟩
        else
          let r := ubsanBranch cb env.ubsanOptions s
          ⟨.getenv "ASAN_OPTIONS" :: r.events, r.crash⟩
  else ubsanBranch cb env.ubsanOptions s

/-- Embeds the macOS `__sanitizer_report_error_summary` (dumper.c lines
112-117): forward the summary to the real implementation found via `dlsym`,
then run the dispatcher.  The `dlsym` lookup is assumed to succeed (its
failure mode is outside every claim). -/
def macos_report_error_summary (cb : Option Nat) (env : Env) (s : CStr) : DispatchResult :=
  let r := sanitizer_death_callback_if_non_fatal_finding cb env s
  ⟨.forwardReal s :: r.events, r.crash⟩

/-- Embeds the Linux `__sanitizer_report_error_summary` (dumper.c lines
140-147): print the summary via `__sanitizer::Printf`, return at once when no
callback is registered, otherwise run the dispatcher. -/
def linux_report_error_summary (cb : Option Nat) (env : Env) (s : CStr) : DispatchResult :=
  match cb with
  | none => ⟨[.printfReal s], none⟩
  | some c =>
    let r := sanitizer_death_callback_if_non_fatal_finding (some c) env s
    ⟨.printfReal s :: r.events, r.crash⟩

/-- Embeds the macOS `__sanitizer_set_death_callback` (dumper.c lines 84-89)
acting on the registry slot: store the callback, overwriting any previous one
(forwarding to the real registration does not touch the slot). -/
def set_death_callback (_slot : Option Nat) (c : Nat) : Option Nat :=
  some c

/-- Embeds the Linux `__wrap___sanitizer_set_death_callback` (dumper.c lines
126-129) acting on the registry slot: store the callback, overwriting any
previous one, then forward to `__real___sanitizer_set_death_callback`. -/
def wrap_set_death_callback (_slot : Option Nat) (c : Nat) : Option Nat :=
  some c

/-- The sanitizer family of a report. -/
inductive SanitizerKind where
  | AddressSafety
  | UndefinedBehavior
  | Other
deriving DecidableEq, Repr

/-- The classifier as the code implements it: the two branch conditions of
`sanitizer_death_callback_if_non_fatal_finding`, both comparing over
`strlen(ASAN_SUMMARY_PREFIX)` characters. -/
def classifyCode (s : CStr) : SanitizerKind :=
  if strncmpEq asanSummaryLit s (strlen asanSummaryLit) then .AddressSafety
  else if strncmpEq ubsanSummaryLit s (strlen asanSummaryLit) then .UndefinedBehavior
  else .Other

/-- `beginsWith p s`: `s` starts with the full literal `p`.  Used to state the
claims' "begins with the full prefix" hypotheses. -/
def beginsWith (p s : CStr) : Bool := decide (p = s.take (strlen p))

/-- The classifier following the spec's words (section 4.1 classification
rule: full-literal-prefix match), kept separate from `classifyCode` for
refinement comparison. -/
def classifySpec (s : CStr) : SanitizerKind :=
  if beginsWith asanSummaryLit s then .AddressSafety
  else if beginsWith ubsanSummaryLit s then .UndefinedBehavior
  else .Other

/-- Halt policy of a sanitizer family, resolved from its option string. -/
inductive HaltPolicy where
  | Halt
  | Continue
deriving DecidableEq, Repr

/-- The ASan halt policy exactly as the code's condition resolves it
(default Halt; the three non-halt spellings give Continue). -/
def asanHaltPolicy (opts : CStr) : HaltPolicy :=
  if strstrFound opts hoe0 || strstrFound opts hoeNo || strstrFound opts hoeFalse then
    .Continue
  else .Halt

/-- The UBSan halt policy exactly as the code's condition resolves it
(default Continue; the three halt spellings give Halt). -/
def ubsanHaltPolicy (opts : CStr) : HaltPolicy :=
  if !strstrFound opts hoe1 && !strstrFound opts hoeYes && !strstrFound opts hoeTrue then
    .Continue
  else .Halt

/-- Whether an event is a callback invocation. -/
def isInvoke : Event → Bool
  | .invoke _ => true
  | _ => false

/-- Number of callback invocations in a run. -/
def invokeCount (r : DispatchResult) : Nat := r.events.countP isInvoke

/-- Concrete non-leak ASan report used in witnesses. -/
def asanOverflowReport : CStr := "SUMMARY: AddressSanitizer: heap-buffer-overflow on address".data

/-- Concrete ASan leak report used in witnesses. -/
def asanLeakReport : CStr := "SUMMARY: AddressSanitizer: 7 byte(s) leaked in 1 allocation(s).".data

/-- Concrete UBSan report used in witnesses. -/
def ubsanShiftReport : CStr := "SUMMARY: UndefinedBehaviorSanitizer: undefined-behavior in foo".data

/-- Concrete report starting with the first 26 characters of the UBSan
summary literal but not with the full literal. -/
def truncatedReport : CStr := "SUMMARY: UndefinedBehavior!".data

/-- A full-literal match implies the code's `strncmp` test over the literal's
own length. -/
theorem strncmpEq_of_beginsWith (p s : CStr) (h : beginsWith p s = true) :
    strncmpEq p s (strlen p) = true := by
  simp only [beginsWith, strlen, decide_eq_true_eq] at h
  simp only [strncmpEq, strlen, decide_eq_true_eq, List.take_length]
  exact h

/-- A text starting with the full UBSan literal passes the code's truncated
26-character UBSan test. -/
theorem ubsan_trunc_of_beginsWith (s : CStr) (h : beginsWith ubsanSummaryLit s = true) :
    strncmpEq ubsanSummaryLit s (strlen asanSummaryLit) = true := by
  simp only [beginsWith, strlen, decide_eq_true_eq] at h
  simp only [strncmpEq, strlen, decide_eq_true_eq]
  rw [h, List.take_take]
  have hmin : min (asanSummaryLit.length) (ubsanSummaryLit.length) = asanSummaryLit.length := by
    decide
  rw [hmin]

/-- A text passing the ASan branch test fails the (truncated) UBSan branch
test: the two branch conditions are mutually exclusive. -/
theorem ubsan_cond_false_of_asan (s : CStr)
    (h : strncmpEq asanSummaryLit s (strlen asanSummaryLit) = true) :
    strncmpEq ubsanSummaryLit s (strlen asanSummaryLit) = false := by
  simp only [strncmpEq, strlen, decide_eq_true_eq, List.take_length] at h
  simp only [strncmpEq, strlen, decide_eq_false_iff_not]
  rw [← h]
  decide

/-- A text starting with the full UBSan literal fails the ASan branch test. -/
theorem asan_cond_false_of_ubsan (s : CStr) (h : beginsWith ubsanSummaryLit s = true) :
    strncmpEq asanSummaryLit s (strlen asanSummaryLit) = false := by
  cases hb : strncmpEq asanSummaryLit s (strlen asanSummaryLit) with
  | false => rfl
  | true =>
    have h2 := ubsan_cond_false_of_asan s hb
    rw [ubsan_trunc_of_beginsWith s h] at h2
    cases h2

/-- When the (truncated) UBSan test fails, the UBSan branch does nothing. -/
theorem ubsanBranch_no_match (cb : Option Nat) (u : Option CStr) (s : CStr)
    (h : strncmpEq ubsanSummaryLit s (strlen asanSummaryLit) = false) :
    ubsanBranch cb u s = ⟨[], none⟩ := by
  simp [ubsanBranch, h]

/-- Master case analysis of one dispatcher run: the event trace is empty, a
single `getenv`, or a `getenv` followed by one invocation of the stored
callback; and a run with exactly one invocation implies the code-resolved
halt policy of the code-classified family is Continue with the family's
option string set. -/
theorem dispatch_master (cb : Option Nat) (env : Env) (s : CStr) :
    ((sanitizer_death_callback_if_non_fatal_finding cb env s).events = [] ∨
     (∃ n, (sanitizer_death_callback_if_non_fatal_finding cb env s).events = [Event.getenv n]) ∨
     (∃ n c, cb = some c ∧
       (sanitizer_death_callback_if_non_fatal_finding cb env s).events =
         [Event.getenv n, Event.invoke c])) ∧
    (invokeCount (sanitizer_death_callback_if_non_fatal_finding cb env s) = 1 →
      (classifyCode s = SanitizerKind.AddressSafety ∧
        ∃ o, env.asanOptions = some o ∧ asanHaltPolicy o = HaltPolicy.Continue) ∨
      (classifyCode s = SanitizerKind.UndefinedBehavior ∧
        ∃ o, env.ubsanOptions = some o ∧ ubsanHaltPolicy o = HaltPolicy.Continue)) := by
  cases ha : strncmpEq asanSummaryLit s (strlen asanSummaryLit) with
  | true =>
    have hu := ubsan_cond_false_of_asan s ha
    have hub : ∀ c u, ubsanBranch c u s = ⟨[], none⟩ := fun c u =>
      ubsanBranch_no_match c u s hu
    have hclass : classifyCode s = SanitizerKind.AddressSafety := by
      simp [classifyCode, ha]
    cases hleak : strstrFound s leakedLit with
    | true =>
      constructor
      · left
        simp [sanitizer_death_callback_if_non_fatal_finding, ha, hleak]
      · intro hcount
        exfalso
        simp [invokeCount, sanitizer_death_callback_if_non_fatal_finding, ha, hleak] at hcount
    | false =>
      cases ho : env.asanOptions with
      | none =>
        constructor
        · right; left
          exact ⟨"ASAN_OPTIONS",
            by simp [sanitizer_death_callback_if_non_fatal_finding, ha, hleak, ho]⟩
        · intro hcount
          exfalso
          simp [invokeCount, sanitizer_death_callback_if_non_fatal_finding, ha, hleak, ho,
            isInvoke] at hcount
      | some o =>
        cases hflag : (strstrFound o hoe0 || strstrFound o hoeNo || strstrFound o hoeFalse) with
        | false =>
          constructor
          · right; left
            exact ⟨"ASAN_OPTIONS",
              by simp [sanitizer_death_callback_if_non_fatal_finding, ha, hleak, ho, hflag, hub]⟩
          · intro hcount
            exfalso
            simp [invokeCount, sanitizer_death_callback_if_non_fatal_finding, ha, hleak, ho,
              hflag, hub, isInvoke] at hcount
        | true =>
          cases cb with
          | none =>
            constructor
            · right; left
              exact ⟨"ASAN_OPTIONS",
                by simp [sanitizer_death_callback_if_non_fatal_finding, ha, hleak, ho, hflag]⟩
            · intro hcount
              exfalso
              simp [invokeCount, sanitizer_death_callback_if_non_fatal_finding, ha, hleak, ho,
                hflag, isInvoke] at hcount
          | some c =>
            constructor
            · right; right
              exact ⟨"ASAN_OPTIONS", c, rfl,
                by simp [sanitizer_death_callback_if_non_fatal_finding, ha, hleak, ho, hflag, hub]⟩
            · intro _
              left
              exact ⟨hclass, o, rfl, by simp [asanHaltPolicy, hflag]⟩
  | false =>
    have hd : ∀ c, sanitizer_death_callback_if_non_fatal_finding c env s =
        ubsanBranch c env.ubsanOptions s := by
      intro c
      simp [sanitizer_death_callback_if_non_fatal_finding, ha]
    cases hu : strncmpEq ubsanSummaryLit s (strlen asanSummaryLit) with
    | false =>
      constructor
      · left
        rw [hd, ubsanBranch_no_match cb env.ubsanOptions s hu]
      · intro hcount
        exfalso
        rw [hd, ubsanBranch_no_match cb env.ubsanOptions s hu] at hcount
        simp [invokeCount] at hcount
    | true =>
      have hclass : classifyCode s = SanitizerKind.UndefinedBehavior := by
        simp [classifyCode, ha, hu]
      cases huo : env.ubsanOptions with
      | none =>
        constructor
        · right; left
          exact ⟨"UBSAN_OPTIONS", by rw [hd]; simp [ubsanBranch, hu, huo]⟩
        · intro hcount
          exfalso
          rw [hd] at hcount
          simp [invokeCount, ubsanBranch, hu, huo, isInvoke] at hcount
      | some o =>
        cases hflag : (!strstrFound o hoe1 && !strstrFound o hoeYes && !strstrFound o hoeTrue) with
        | false =>
          constructor
          · right; left
            exact ⟨"UBSAN_OPTIONS", by rw [hd]; simp [ubsanBranch, hu, huo, hflag]⟩
          · intro hcount
            exfalso
            rw [hd] at hcount
            simp [invokeCount, ubsanBranch, hu, huo, hflag, isInvoke] at hcount
        | true =>
          cases cb with
          | none =>
            constructor
            · right; left
              exact ⟨"UBSAN_OPTIONS", by rw [hd]; simp [ubsanBranch, hu, huo, hflag]⟩
            · intro hcount
              exfalso
              rw [hd] at hcount
              simp [invokeCount, ubsanBranch, hu, huo, hflag, isInvoke] at hcount
          | some c =>
            constructor
            · right; right
              exact ⟨"UBSAN_OPTIONS", c, rfl, by rw [hd]; simp [ubsanBranch, hu, huo, hflag]⟩
            · intro _
              right
              exact ⟨hclass, o, rfl, by simp [ubsanHaltPolicy, hflag]⟩

/-- Every dispatcher run invokes the stored callback at most once. -/
theorem dispatch_count_le_one (cb : Option Nat) (env : Env) (s : CStr) :
    invokeCount (sanitizer_death_callback_if_non_fatal_finding cb env s) ≤ 1 := by
  rcases (dispatch_master cb env s).1 with h | ⟨n, h⟩ | ⟨n, c, hc, h⟩ <;>
    simp [invokeCount, h, isInvoke]

/-- An invocation event in a dispatcher run can only carry the stored
callback. -/
theorem dispatch_invoke_only_cb (cb : Option Nat) (env : Env) (s : CStr) (x : Nat)
    (hx : Event.invoke x ∈ (sanitizer_death_callback_if_non_fatal_finding cb env s).events) :
    cb = some x := by
  rcases (dispatch_master cb env s).1 with h | ⟨n, h⟩ | ⟨n, c, hc, h⟩ <;> rw [h] at hx
  · simp at hx
  · simp at hx
  · simp at hx
    rw [hc, hx]

/-- C1: for a report with the full ASan summary literal and no leak needle,
with a callback registered, the dispatcher invokes the callback exactly once
when `ASAN_OPTIONS` is set and contains one of the three non-halt spellings,
and never invokes it otherwise — neither when `ASAN_OPTIONS` is set without
such a spelling, nor when it is unset (in that last case the run aborts at the
null `strstr` argument before reaching any invocation, see C6). -/
theorem C1_asan_nonleak_callback (s : CStr) (env : Env) (c : Nat)
    (hpre : beginsWith asanSummaryLit s = true)
    (hleak : strstrFound s leakedLit = false) :
    (∀ o, env.asanOptions = some o →
      ((strstrFound o hoe0 || strstrFound o hoeNo || strstrFound o hoeFalse) = true →
        invokeCount (sanitizer_death_callback_if_non_fatal_finding (some c) env s) = 1) ∧
      ((strstrFound o hoe0 || strstrFound o hoeNo || strstrFound o hoeFalse) = false →
        invokeCount (sanitizer_death_callback_if_non_fatal_finding (some c) env s) = 0)) ∧
    (env.asanOptions = none →
      invokeCount (sanitizer_death_callback_if_non_fatal_finding (some c) env s) = 0) := by
  have ha := strncmpEq_of_beginsWith asanSummaryLit s hpre
  have hu := ubsan_cond_false_of_asan s ha
  have hub : ∀ cb u, ubsanBranch cb u s = ⟨[], none⟩ := fun cb u =>
    ubsanBranch_no_match cb u s hu
  constructor
  · intro o ho
    constructor
    · intro hflag
      simp [sanitizer_death_callback_if_non_fatal_finding, ha, hleak, ho, hflag, hub,
        invokeCount, isInvoke]
    · intro hflag
      simp [sanitizer_death_callback_if_non_fatal_finding, ha, hleak, ho, hflag, hub,
        invokeCount, isInvoke]
  · intro ho
    simp [sanitizer_death_callback_if_non_fatal_finding, ha, hleak, ho, hub,
      invokeCount, isInvoke]

/-- Witness for C1 at a concrete non-leak ASan report with
`ASAN_OPTIONS=halt_on_error=0` and callback `0`: exactly one invocation. -/
theorem C1_asan_nonleak_callback_witness :
    invokeCount (sanitizer_death_callback_if_non_fatal_finding (some 0)
      ⟨some hoe0, none⟩ asanOverflowReport) = 1 :=
  ((C1_asan_nonleak_callback asanOverflowReport ⟨some hoe0, none⟩ 0
      (by decide) (by decide)).1 hoe0 rfl).1 (by decide)

/-- C2 counterexample: at a report with the full UBSan summary literal and
`UBSAN_OPTIONS` unset, the dispatcher does not invoke the callback exactly
once (the claim says it should); the run aborts on `strstr` applied to the
NULL option string, with zero invocations. -/
theorem C2_counterexample_unset_ubsan_options :
    ¬ invokeCount (sanitizer_death_callback_if_non_fatal_finding (some 0)
        ⟨none, none⟩ ubsanShiftReport) = 1 ∧
    (sanitizer_death_callback_if_non_fatal_finding (some 0)
        ⟨none, none⟩ ubsanShiftReport).crash = some Crash.nullStrstr := by
  decide

/-- C2 (amended): for a report with the full UBSan summary literal and a
callback registered, when `UBSAN_OPTIONS` is set the dispatcher invokes the
callback exactly once if the string contains none of `halt_on_error=1`,
`halt_on_error=yes`, `halt_on_error=true`, and never when one is present;
when `UBSAN_OPTIONS` is unset the run aborts on the NULL option string with
zero invocations. -/
theorem C2_ubsan_callback_amended (s : CStr) (env : Env) (c : Nat)
    (hpre : beginsWith ubsanSummaryLit s = true) :
    (∀ o, env.ubsanOptions = some o →
      ((strstrFound o hoe1 || strstrFound o hoeYes || strstrFound o hoeTrue) = false →
        invokeCount (sanitizer_death_callback_if_non_fatal_finding (some c) env s) = 1) ∧
      ((strstrFound o hoe1 || strstrFound o hoeYes || strstrFound o hoeTrue) = true →
        invokeCount (sanitizer_death_callback_if_non_fatal_finding (some c) env s) = 0)) ∧
    (env.ubsanOptions = none →
      invokeCount (sanitizer_death_callback_if_non_fatal_finding (some c) env s) = 0 ∧
      (sanitizer_death_callback_if_non_fatal_finding (some c) env s).crash =
        some Crash.nullStrstr) := by
  have ha := asan_cond_false_of_ubsan s hpre
  have hu := ubsan_trunc_of_beginsWith s hpre
  constructor
  · intro o ho
    have hnot : ∀ (b : Bool),
        (strstrFound o hoe1 || strstrFound o hoeYes || strstrFound o hoeTrue) = b →
        (!strstrFound o hoe1 && !strstrFound o hoeYes && !strstrFound o hoeTrue) = !b := by
      intro b hb
      rw [← Bool.not_or, ← Bool.not_or, hb]
    constructor
    · intro hflag
      have hcond := hnot false hflag
      simp [sanitizer_death_callback_if_non_fatal_finding, ubsanBranch, ha, hu, ho,
        hcond, invokeCount, isInvoke]
    · intro hflag
      have hcond := hnot true hflag
      simp [sanitizer_death_callback_if_non_fatal_finding, ubsanBranch, ha, hu, ho,
        hcond, invokeCount, isInvoke]
  · intro ho
    simp [sanitizer_death_callback_if_non_fatal_finding, ubsanBranch, ha, hu, ho,
      invokeCount, isInvoke]

/-- Witness for C2 (amended) at the concrete UBSan report with
`UBSAN_OPTIONS` set to the empty string and callback `0`: exactly one
invocation. -/
theorem C2_ubsan_callback_amended_witness :
    invokeCount (sanitizer_death_callback_if_non_fatal_finding (some 0)
      ⟨none, some []⟩ ubsanShiftReport) = 1 :=
  ((C2_ubsan_callback_amended ubsanShiftReport ⟨none, some []⟩ 0
      (by decide)).1 [] rfl).1 (by decide)

/-- C3: a report with the full ASan summary literal containing the substring
`"byte(s) leaked"` makes the dispatcher return at once: no callback
invocation, no environment read, no crash, for every callback slot and every
configuration of the two option strings. -/
theorem C3_leak_reports_suppressed (s : CStr) (env : Env) (cb : Option Nat)
    (hpre : beginsWith asanSummaryLit s = true)
    (hleak : strstrFound s leakedLit = true) :
    invokeCount (sanitizer_death_callback_if_non_fatal_finding cb env s) = 0 ∧
    sanitizer_death_callback_if_non_fatal_finding cb env s = ⟨[], none⟩ := by
  have ha := strncmpEq_of_beginsWith asanSummaryLit s hpre
  have heq : sanitizer_death_callback_if_non_fatal_finding cb env s = ⟨[], none⟩ := by
    simp [sanitizer_death_callback_if_non_fatal_finding, ha, hleak]
  exact ⟨by rw [heq]; rfl, heq⟩

/-- Witness for C3 at a concrete leak report, both option strings set to
halt-relevant values and callback `0`: the dispatcher does nothing. -/
theorem C3_leak_reports_suppressed_witness :
    invokeCount (sanitizer_death_callback_if_non_fatal_finding (some 0)
      ⟨some hoe0, some hoe1⟩ asanLeakReport) = 0 ∧
    sanitizer_death_callback_if_non_fatal_finding (some 0)
      ⟨some hoe0, some hoe1⟩ asanLeakReport = ⟨[], none⟩ :=
  C3_leak_reports_suppressed asanLeakReport ⟨some hoe0, some hoe1⟩ (some 0)
    (by decide) (by decide)

/-- C4 (code bug): the UBSan branch compares the report against
`UBSAN_SUMMARY_PREFIX` over `strlen(ASAN_SUMMARY_PREFIX)` = 26 characters
(dumper.c line 59), so the report `"SUMMARY: UndefinedBehavior!"` — which
starts with neither full summary literal and is Other under the spec's
classification rule — is treated as an UndefinedBehavior report, and with
`UBSAN_OPTIONS` set empty the dispatcher invokes the registered callback
instead of taking no action. -/
theorem C4_truncated_ubsan_comparison :
    classifySpec truncatedReport = SanitizerKind.Other ∧
    classifyCode truncatedReport = SanitizerKind.UndefinedBehavior ∧
    invokeCount (sanitizer_death_callback_if_non_fatal_finding (some 0)
      ⟨none, some []⟩ truncatedReport) = 1 := by
  decide

/-- C5: every single dispatcher run invokes the stored callback at most once;
the two branch conditions are mutually exclusive on every report text; and a
run with exactly one invocation happens only with the code-resolved halt
policy of the code-classified family equal to Continue (with that family's
option string set). -/
theorem C5_at_most_one_invocation (s : CStr) (env : Env) (cb : Option Nat) :
    invokeCount (sanitizer_death_callback_if_non_fatal_finding cb env s) ≤ 1 ∧
    ¬ (strncmpEq asanSummaryLit s (strlen asanSummaryLit) = true ∧
       strncmpEq ubsanSummaryLit s (strlen asanSummaryLit) = true) ∧
    (invokeCount (sanitizer_death_callback_if_non_fatal_finding cb env s) = 1 →
      (classifyCode s = SanitizerKind.AddressSafety ∧
        ∃ o, env.asanOptions = some o ∧ asanHaltPolicy o = HaltPolicy.Continue) ∨
      (classifyCode s = SanitizerKind.UndefinedBehavior ∧
        ∃ o, env.ubsanOptions = some o ∧ ubsanHaltPolicy o = HaltPolicy.Continue)) := by
  refine ⟨dispatch_count_le_one cb env s, ?_, (dispatch_master cb env s).2⟩
  intro ⟨h1, h2⟩
  rw [ubsan_cond_false_of_asan s h1] at h2
  cases h2

/-- Witness for C5 at a concrete ASan report under non-halt options: both
provable parts instantiated, with the invocation-count hypothesis discharged
concretely. -/
theorem C5_at_most_one_invocation_witness :
    invokeCount (sanitizer_death_callback_if_non_fatal_finding (some 0)
      ⟨some hoe0, none⟩ asanOverflowReport) ≤ 1 ∧
    ((classifyCode asanOverflowReport = SanitizerKind.AddressSafety ∧
        ∃ o, (Env.mk (some hoe0) none).asanOptions = some o ∧
          asanHaltPolicy o = HaltPolicy.Continue) ∨
      (classifyCode asanOverflowReport = SanitizerKind.UndefinedBehavior ∧
        ∃ o, (Env.mk (some hoe0) none).ubsanOptions = some o ∧
          ubsanHaltPolicy o = HaltPolicy.Continue)) :=
  ⟨(C5_at_most_one_invocation asanOverflowReport ⟨some hoe0, none⟩ (some 0)).1,
   (C5_at_most_one_invocation asanOverflowReport ⟨some hoe0, none⟩ (some 0)).2.2 (by decide)⟩

/-- C6 (code bug): with the relevant option string unset, the policy check
passes NULL to `strstr` (dumper.c lines 43-47 and 60-64) — a null
dereference — instead of completing with the documented default policy; shown
for both an ASan report with `ASAN_OPTIONS` unset and a UBSan report with
`UBSAN_OPTIONS` unset. -/
theorem C6_unset_options_null_dereference :
    (sanitizer_death_callback_if_non_fatal_finding (some 0)
      ⟨none, none⟩ asanOverflowReport).crash = some Crash.nullStrstr ∧
    (sanitizer_death_callback_if_non_fatal_finding (some 0)
      ⟨none, none⟩ ubsanShiftReport).crash = some Crash.nullStrstr := by
  decide

/-- C7 (code bug): with no callback ever registered, a qualifying dispatch on
the dynamic-symbol (macOS) entry point calls through the NULL callback
pointer — the dispatcher has no null check — while the link-time (Linux)
entry point returns after printing, as the claim requires. -/
theorem C7_unregistered_callback_null_call :
    (macos_report_error_summary none ⟨none, some []⟩ ubsanShiftReport).crash =
      some Crash.nullCallback ∧
    linux_report_error_summary none ⟨none, some []⟩ ubsanShiftReport =
      ⟨[Event.printfReal ubsanShiftReport], none⟩ := by
  decide

/-- C8: on both strategies the entry point's first observable action is
handing the report text, unmodified, to the real/original summary handling
(the `dlsym`-resolved real handler on macOS, `__sanitizer::Printf` on Linux);
every classification step and callback invocation comes after. -/
theorem C8_forward_report_first (cb : Option Nat) (env : Env) (s : CStr) :
    (macos_report_error_summary cb env s).events.head? = some (Event.forwardReal s) ∧
    (linux_report_error_summary cb env s).events.head? = some (Event.printfReal s) := by
  refine ⟨rfl, ?_⟩
  cases cb <;> rfl

/-- C9: registering callback `a` then callback `b` (on either strategy's
registration hook) leaves the slot holding exactly `b`, and any invocation a
subsequent dispatch performs carries `b` — the latest registration wins. -/
theorem C9_latest_registration_wins (slot : Option Nat) (a b : Nat) (env : Env) (s : CStr) :
    set_death_callback (set_death_callback slot a) b = some b ∧
    wrap_set_death_callback (wrap_set_death_callback slot a) b = some b ∧
    (∀ x, Event.invoke x ∈
        (sanitizer_death_callback_if_non_fatal_finding
          (wrap_set_death_callback (wrap_set_death_callback slot a) b) env s).events →
      x = b) := by
  refine ⟨rfl, rfl, ?_⟩
  intro x hx
  simp only [wrap_set_death_callback] at hx
  have h := dispatch_invoke_only_cb (some b) env s x hx
  exact (Option.some.inj h).symm

/-- Witness for C9: register `1` then `2`; the slot holds `2`, and the
invocation the concrete UBSan dispatch performs carries `2`. -/
theorem C9_latest_registration_wins_witness :
    set_death_callback (set_death_callback none 1) 2 = some 2 ∧
    wrap_set_death_callback (wrap_set_death_callback none 1) 2 = some 2 ∧
    (2 : Nat) = 2 := by
  have h := C9_latest_registration_wins none 1 2 ⟨none, some []⟩ ubsanShiftReport
  exact ⟨h.1, h.2.1, h.2.2 2 (by decide)⟩

/-- C10: on the Linux strategy, a report arriving with no callback registered
is printed via `__sanitizer::Printf` and the entry point returns at once: the
whole trace is the single print — no branch condition is evaluated, neither
option string is read, and no invocation happens. -/
theorem C10_linux_early_return_without_callback (env : Env) (s : CStr) :
    linux_report_error_summary none env s = ⟨[Event.printfReal s], none⟩ := rfl

end Dumper
